import Mathlib

/-
Verification of the water-reach-tracer workflow: a shallow embedding of the
snap / trace / publish logic found in the repository notebooks
(src/resources/epa_water_prototyping.ipynb, src/resources/03_reach_layer_geometry.ipynb),
together with theorems settling the specified properties.

Python runtime errors (NameError, UnboundLocalError, TypeError, IndexError,
and the notebooks' own TraceException) are modelled with an explicit error
type, and every fallible function returns an Except value.  HTTP services are
modelled as pure functions supplied by the caller: the service maps the
attempt index to the response it returns for that attempt.
-/

/-- Python-level errors that the embedded notebook code can raise. -/
inductive PyError where
  | nameError (n : String)
  | unboundLocalError (n : String)
  | typeError (msg : String)
  | indexError (msg : String)
  | traceException (msg : String)
  deriving DecidableEq, Repr

/-- An HTTP response as seen by the retry loop: its status code, plus an
opaque body tag so that distinct responses can be told apart. -/
structure Response where
  status_code : Nat
  body : Nat
  deriving DecidableEq, Repr

/-- A geographic coordinate pair.  Coordinates in the notebooks are decimal
numbers deserialized from JSON; the embedding uses rationals. -/
structure Coord where
  x : Rat
  y : Rat
  deriving DecidableEq, Repr

/-- The dictionary returned by get_epa_snap_point: the snapped geometry, the
linear-reference measure fmeasure of the first flowline, and the dict key
"id" holding the first flowline's comid. -/
structure SnapPointDict where
  geometry : Coord
  measure : Rat
  comid : Int
  deriving DecidableEq, Repr

/-- The query string built by get_epa_trace_response for the EPA
UpstreamDownStream service, field for field as in the source (note the
source's casing: pStartComID but pStopComid). -/
structure TraceQuery where
  pNavigationType : String
  pStartComID : Int
  pStartMeasure : Rat
  pStopComid : Int
  pStopMeasure : Rat
  pFlowlinelist : Bool
  pTraversalSummary : Bool
  f : String
  deriving DecidableEq, Repr

/-- The queryString dictionary literal of get_epa_trace_response. -/
def build_epa_trace_query (putin_point takeout_point : SnapPointDict) : TraceQuery :=
  { pNavigationType := "PP"
    pStartComID := putin_point.comid
    pStartMeasure := putin_point.measure
    pStopComid := takeout_point.comid
    pStopMeasure := takeout_point.measure
    pFlowlinelist := true
    pTraversalSummary := true
    f := "json" }

/-- Falling out of the while loop, Python executes return resp; if the loop
body never ran, the local resp is unbound and that line raises NameError. -/
def loopExit (resp : Option Response) (attempts : Nat) :
    Except PyError Response × Nat :=
  match resp with
  | some rsp => (Except.ok rsp, attempts)
  | none => (Except.error (PyError.nameError "resp"), attempts)

/-- The while loop of get_epa_trace_response, transcribed from the source:

    attempts = 0; status_code = 0
    while attempts < 10 and status_code != 200:
        resp = requests.get(url, queryString)
        attempts = attempts + 1
        status_code = r.status_code
        if status_code != 200: print(...)
    return resp

The name r is never assigned in the function, so the line reading
r.status_code looks it up in the enclosing environment: env_r is that
environment binding (none when r is unbound, in which case the lookup
raises NameError).  svc i is the response the service returns to the
i-th request (0-based).  The fuel argument is always at least 10 minus
attempts, so it never runs out before the loop guard fails; the fuel-zero
case is given the same exit value as a failed guard.  The second component
of the result counts the HTTP requests issued. -/
def traceLoopAux (env_r : Option Response) (svc : Nat → Response) :
    Nat → Nat → Nat → Option Response → Except PyError Response × Nat
  | 0, attempts, _, resp => loopExit resp attempts
  | fuel + 1, attempts, status_code, resp =>
    if attempts < 10 ∧ status_code ≠ 200 then
      match env_r with
      | none => (Except.error (PyError.nameError "r"), attempts + 1)
      | some r =>
          traceLoopAux env_r svc fuel (attempts + 1) r.status_code (some (svc attempts))
    else loopExit resp attempts

/-- get_epa_trace_response: builds the trace query from the two snapped
points, then runs the retry loop against the service.  The service svc is
given the query and the attempt index; env_r is the enclosing-scope binding
of the name r. -/
def get_epa_trace_response (env_r : Option Response)
    (svc : TraceQuery → Nat → Response)
    (putin_point takeout_point : SnapPointDict) :
    Except PyError Response × Nat :=
  traceLoopAux env_r (svc (build_epa_trace_query putin_point takeout_point)) 10 0 0 none

/-- One flowline feature of a trace response: its shape's coordinate path,
as read by feature["shape"]["coordinates"]. -/
structure FlowlineFeature where
  coordinates : List Coord
  deriving DecidableEq, Repr

/-- The output object of a trace response: the ordered list
output["flowlines_traversed"]. -/
structure TraceOutput where
  flowlines_traversed : List FlowlineFeature
  deriving DecidableEq, Repr

/-- The JSON body of a trace response, as returned by trace_response.json(). -/
structure TraceResponseJson where
  output : TraceOutput
  deriving DecidableEq, Repr

/-- An Esri polyline geometry dictionary: its list of paths and the wkid of
its spatial reference. -/
structure EsriPolyline where
  paths : List (List Coord)
  wkid : Nat
  deriving DecidableEq, Repr

/-- epa_trace_resp_to_esri_geom, transcribed from the source: if the
flowlines_traversed list is truthy (non-empty), build the list of each
feature's coordinate list, chain them into one flat list, and return a
geometry whose single path is that list (wkid 4326); otherwise return None. -/
def epa_trace_resp_to_esri_geom (trace_response : TraceResponseJson) :
    Option EsriPolyline :=
  if trace_response.output.flowlines_traversed ≠ [] then
    let geom_lists :=
      trace_response.output.flowlines_traversed.map (fun feature => feature.coordinates)
    let geom_list := geom_lists.flatten
    some { paths := [geom_list], wkid := 4326 }
  else
    none

/-- The end_point object of a point-indexing response: its coordinate array. -/
structure EndPoint where
  coordinates : List Rat
  deriving DecidableEq, Repr

/-- One entry of the ary_flowlines array of a point-indexing response. -/
structure SnapFlowline where
  fmeasure : Rat
  comid : Int
  deriving DecidableEq, Repr

/-- The output object of a point-indexing response.  The service may report
no snapped end point or an empty flowline array; JSON null is modelled as
none. -/
structure SnapOutput where
  end_point : Option EndPoint
  ary_flowlines : List SnapFlowline
  deriving DecidableEq, Repr

/-- The JSON body returned by get_epa_point_indexing (the output key may be
null when the service finds nothing). -/
structure SnapResponseJson where
  output : Option SnapOutput
  deriving DecidableEq, Repr

/-- get_epa_snap_point, transcribed from the source.  The HTTP call of
get_epa_point_indexing is modelled by passing its parsed JSON body in.
Python subscripting drives the error cases: indexing into a JSON null
raises TypeError, and indexing an empty array (coords[0], coords[1],
ary_flowlines[0]) raises IndexError.  No branch of this function raises
TraceException and no branch returns a falsy value. -/
def get_epa_snap_point (rjson : SnapResponseJson) : Except PyError SnapPointDict :=
  match rjson.output with
  | none => Except.error (PyError.typeError "NoneType object is not subscriptable")
  | some out =>
    match out.end_point with
    | none => Except.error (PyError.typeError "NoneType object is not subscriptable")
    | some ep =>
      match ep.coordinates with
      | c0 :: c1 :: _ =>
        match out.ary_flowlines with
        | [] => Except.error (PyError.indexError "list index out of range")
        | fl :: _ =>
            Except.ok { geometry := { x := c0, y := c1 }
                        measure := fl.fmeasure
                        comid := fl.comid }
      | _ => Except.error (PyError.indexError "list index out of range")

/-- One row of the accesses table (SpatialDataFrame): the reach_id column is
a string, the type column holds "putin" or "takeout", and SHAPE carries the
coordinate. -/
structure AccessRecord where
  reach_id : String
  type : String
  shape : Coord
  deriving DecidableEq, Repr

/-- The filtered frame sdf[(sdf.reach_id == reach_id) & (sdf.type == access_type)]
computed inside _get_access_from_sdf (after reach_id was passed through str). -/
def accessMatches (sdf : List AccessRecord) (reach_id : Nat) (access_type : String) :
    List AccessRecord :=
  sdf.filter (fun row => row.reach_id == toString reach_id && row.type == access_type)

/-- _get_access_from_sdf, transcribed from the source: coerce reach_id to a
string, reject an access_type other than putin or takeout, filter the
table, and return the row when exactly one matches; raise TraceException
when zero or several match.  The source's error messages come from
malformed format calls: the second format argument is dropped, giving
"more than one putin exists" and "does not have a 2156". -/
def _get_access_from_sdf (sdf : List AccessRecord) (reach_id : Nat) (access_type : String) :
    Except PyError AccessRecord :=
  if access_type ≠ "putin" ∧ access_type ≠ "takeout" then
    Except.error (PyError.traceException "access_type must be either putin or takeout")
  else
    match accessMatches sdf reach_id access_type with
    | [row] => Except.ok row
    | _ :: _ :: _ =>
        Except.error (PyError.traceException ("more than one " ++ access_type ++ " exists"))
    | [] =>
        Except.error (PyError.traceException ("does not have a " ++ toString reach_id))

/-- get_putin_from_sdf from the source. -/
def get_putin_from_sdf (sdf : List AccessRecord) (reach_id : Nat) :
    Except PyError AccessRecord :=
  _get_access_from_sdf sdf reach_id "putin"

/-- get_takeout_from_sdf from the source. -/
def get_takeout_from_sdf (sdf : List AccessRecord) (reach_id : Nat) :
    Except PyError AccessRecord :=
  _get_access_from_sdf sdf reach_id "takeout"

/-- The geom_dict assembled by get_geometries_from_sdf_by_reach_id. -/
structure GeomDict where
  putin_point : Option Coord
  takeout_point : Option Coord
  reach_line : Option EsriPolyline
  deriving DecidableEq, Repr

/-- get_geometries_from_sdf_by_reach_id, transcribed from the source.  After
the two access lookups succeed, the function executes

    if not epa_putin: raise TraceException(...)

but epa_putin is a local variable that is only assigned two statements
later, so this read raises UnboundLocalError on every path: the snap calls,
the trace call and the TraceException lines below it are unreachable. -/
def get_geometries_from_sdf_by_reach_id (sdf : List AccessRecord) (reach_id : Nat) :
    Except PyError GeomDict :=
  match get_putin_from_sdf sdf reach_id with
  | Except.error e => Except.error e
  | Except.ok _ =>
    match get_takeout_from_sdf sdf reach_id with
    | Except.error e => Except.error e
    | Except.ok _ =>
        Except.error (PyError.unboundLocalError "epa_putin")

/-- One feature row of a remote feature collection: its reach_id attribute
plus an opaque payload standing for the remaining attributes and geometry. -/
structure FeatureRecord where
  reach_id : String
  payload : Nat
  deriving DecidableEq, Repr

/-- Modelled from the spec: the Publisher upsert of one remote collection,
"delete any existing record(s) for that id, then insert the new one".  The
implementing code (Reach.publish in reach_tools.py) is not part of the
repository snapshot; the in-notebook reach_update sketch in
03_reach_layer_geometry.ipynb shows the same shape (query by reach_id,
delete_features where reach_id matches, then publish the new feature). -/
def upsert_features (coll : List FeatureRecord) (rid : String)
    (features : List FeatureRecord) : List FeatureRecord :=
  coll.filter (fun row => row.reach_id != rid) ++ features

/-- The three remote collections the Publisher writes to. -/
structure ReachCollections where
  line_coll : List FeatureRecord
  centroid_coll : List FeatureRecord
  point_coll : List FeatureRecord
  deriving DecidableEq, Repr

/-- The records a Reach publishes: its id, one line feature, one centroid
feature, and its access point features (put-in and take-out). -/
structure ReachFeatures where
  rid : String
  line_feature : FeatureRecord
  centroid_feature : FeatureRecord
  point_features : List FeatureRecord
  deriving DecidableEq, Repr

/-- Modelled from the spec: publishing a Reach upserts its records into the
line, centroid and point collections, each keyed by the reach id. -/
def publish_reach (col : ReachCollections) (r : ReachFeatures) : ReachCollections :=
  { line_coll := upsert_features col.line_coll r.rid [r.line_feature]
    centroid_coll := upsert_features col.centroid_coll r.rid [r.centroid_feature]
    point_coll := upsert_features col.point_coll r.rid r.point_features }

/-- A snapped put-in, with the coordinates of the notebook's Little White
Salmon example. -/
def putinExample : SnapPointDict :=
  { geometry := { x := -121634402 / 1000000, y := 45794848 / 1000000 }
    measure := 28
    comid := 23719967 }

/-- A snapped take-out for the same example reach. -/
def takeoutExample : SnapPointDict :=
  { geometry := { x := -121645582 / 1000000, y := 45718817 / 1000000 }
    measure := 3
    comid := 23719881 }

/-- A service that answers every request with HTTP 500. -/
def svcFail500 : TraceQuery → Nat → Response :=
  fun _ i => { status_code := 500, body := i }

/-- A service that fails the first request with HTTP 500 and succeeds with
HTTP 200 from the second request on. -/
def svcFailOnce : TraceQuery → Nat → Response :=
  fun _ i => if i = 0 then { status_code := 500, body := 0 } else { status_code := 200, body := i }

/-- A stale response object with a non-2xx status, standing for a value the
enclosing scope could bind the name r to. -/
def staleFailureResponse : Response :=
  { status_code := 500, body := 99 }

/-- A stale response object with status 200 bound to the name r. -/
def staleOkResponse : Response :=
  { status_code := 200, body := 7 }

/-- An access table holding exactly one put-in and one take-out for reach
2156. -/
def sdfExample : List AccessRecord :=
  [ { reach_id := "2156", type := "putin", shape := { x := -121, y := 45 } },
    { reach_id := "2156", type := "takeout", shape := { x := -122, y := 46 } } ]

/-- A point-indexing response whose output is JSON null: the service found
no candidate at all. -/
def nullOutputSnap : SnapResponseJson :=
  { output := none }

/-- A point-indexing response with an end point but an empty ary_flowlines
array: no candidate flowline within the search radius. -/
def noCandidateSnap : SnapResponseJson :=
  { output := some { end_point := some { coordinates := [1, 2] }
                     ary_flowlines := [] } }

/-- A successful point-indexing response with one flowline candidate. -/
def goodSnap : SnapResponseJson :=
  { output := some { end_point := some { coordinates := [-121634402 / 1000000, 45794848 / 1000000] }
                     ary_flowlines := [ { fmeasure := 28, comid := 23719967 },
                                        { fmeasure := 55, comid := 23719999 } ] } }

/-- A trace response reporting zero traversed flowlines. -/
def emptyTraceResponse : TraceResponseJson :=
  { output := { flowlines_traversed := [] } }

/-- A trace response with two traversed flowline segments. -/
def twoSegmentTraceResponse : TraceResponseJson :=
  { output := { flowlines_traversed :=
      [ { coordinates := [ { x := 0, y := 0 }, { x := 1, y := 1 } ] },
        { coordinates := [ { x := 1, y := 1 }, { x := 2, y := 3 } ] } ] } }

/-- A concrete state of the three remote collections, holding an older line
record for reach 2156 and a record of another reach. -/
def collectionsExample : ReachCollections :=
  { line_coll := [ { reach_id := "2156", payload := 1 }, { reach_id := "2270", payload := 2 } ]
    centroid_coll := [ { reach_id := "2270", payload := 3 } ]
    point_coll := [ { reach_id := "2156", payload := 4 } ] }

/-- The records published for reach 2156 in the witness scenario. -/
def reachFeaturesExample : ReachFeatures :=
  { rid := "2156"
    line_feature := { reach_id := "2156", payload := 10 }
    centroid_feature := { reach_id := "2156", payload := 11 }
    point_features := [ { reach_id := "2156", payload := 12 },
                        { reach_id := "2156", payload := 13 } ] }

/-- Unfolding equation for one iteration of the embedded while loop. -/
theorem traceLoopAux_step (env_r : Option Response) (svc2 : Nat → Response)
    (fuel attempts status_code : Nat) (resp : Option Response) :
    traceLoopAux env_r svc2 (fuel + 1) attempts status_code resp =
      if attempts < 10 ∧ status_code ≠ 200 then
        match env_r with
        | none => (Except.error (PyError.nameError "r"), attempts + 1)
        | some r =>
            traceLoopAux env_r svc2 fuel (attempts + 1) r.status_code (some (svc2 attempts))
      else loopExit resp attempts := rfl

/-- When the name r is unbound in the enclosing scope, the first loop
iteration issues one request and then raises NameError reading
r.status_code. -/
theorem trace_response_unbound_r (svc : TraceQuery → Nat → Response)
    (putin_point takeout_point : SnapPointDict) :
    get_epa_trace_response none svc putin_point takeout_point =
      (Except.error (PyError.nameError "r"), 1) := rfl

/-- Once the loop is running with a bound r of non-200 status, the guard
stays true until attempts reaches 10, and the loop then returns the
response of the tenth request. -/
theorem traceLoopAux_stuck (r : Response) (svc2 : Nat → Response)
    (h : r.status_code ≠ 200) :
    ∀ fuel attempts, attempts + fuel = 10 → 1 ≤ attempts →
      traceLoopAux (some r) svc2 fuel attempts r.status_code (some (svc2 (attempts - 1))) =
        (Except.ok (svc2 9), 10) := by
  intro fuel
  induction fuel with
  | zero =>
    intro attempts h10 h1
    have ha : attempts = 10 := by omega
    subst ha
    rfl
  | succ n ih =>
    intro attempts h10 h1
    have hlt : attempts < 10 := by omega
    rw [traceLoopAux_step, if_pos ⟨hlt, h⟩]
    exact ih (attempts + 1) (by omega) (by omega)

/-- Complete characterisation of get_epa_trace_response when the enclosing
scope binds r: the outcome depends only on the status code of that stale
object, never on the statuses of the responses the loop receives. -/
theorem trace_response_char_some (r : Response) (svc : TraceQuery → Nat → Response)
    (putin_point takeout_point : SnapPointDict) :
    get_epa_trace_response (some r) svc putin_point takeout_point =
      if r.status_code = 200
      then (Except.ok (svc (build_epa_trace_query putin_point takeout_point) 0), 1)
      else (Except.ok (svc (build_epa_trace_query putin_point takeout_point) 9), 10) := by
  have step1 : get_epa_trace_response (some r) svc putin_point takeout_point =
      traceLoopAux (some r) (svc (build_epa_trace_query putin_point takeout_point)) 9 1
        r.status_code (some (svc (build_epa_trace_query putin_point takeout_point) 0)) := rfl
  by_cases h : r.status_code = 200
  · rw [if_pos h, step1, h]
    rfl
  · rw [if_neg h, step1]
    exact traceLoopAux_stuck r _ h 9 1 (by omega) (by omega)

/-- C9: for every pair of snapped points, the trace request built by
get_epa_trace_response encodes navigation type "PP", the put-in's feature
id and measure as the start parameters, and the take-out's feature id and
measure as the stop parameters. -/
theorem c9_trace_query_encodes_pp_start_stop
    (putin_point takeout_point : SnapPointDict) :
    build_epa_trace_query putin_point takeout_point =
      { pNavigationType := "PP"
        pStartComID := putin_point.comid
        pStartMeasure := putin_point.measure
        pStopComid := takeout_point.comid
        pStopMeasure := takeout_point.measure
        pFlowlinelist := true
        pTraversalSummary := true
        f := "json" } := rfl

/-- C10: the status check of the retry loop reads the name r, which the
function never assigns.  When r is unbound in the enclosing environment,
every call raises NameError during the first loop iteration, after issuing
exactly one HTTP request; and when r is bound, the outcome is a function of
the stale object's status code alone, so in no environment does the loop
inspect the status code of the response it just received. -/
theorem c10_status_check_reads_unbound_r :
    (∀ (svc : TraceQuery → Nat → Response) (putin_point takeout_point : SnapPointDict),
        get_epa_trace_response none svc putin_point takeout_point =
          (Except.error (PyError.nameError "r"), 1)) ∧
    (∀ (r : Response) (svc : TraceQuery → Nat → Response)
        (putin_point takeout_point : SnapPointDict),
        get_epa_trace_response (some r) svc putin_point takeout_point =
          if r.status_code = 200
          then (Except.ok (svc (build_epa_trace_query putin_point takeout_point) 0), 1)
          else (Except.ok (svc (build_epa_trace_query putin_point takeout_point) 9), 10)) :=
  ⟨fun svc putin_point takeout_point => trace_response_unbound_r svc putin_point takeout_point,
   fun r svc putin_point takeout_point => trace_response_char_some r svc putin_point takeout_point⟩

/-- C1 evaluation at the failing input: in an environment that binds r to a
stale non-2xx response, a service that answers every one of the 10 requests
with HTTP 500 makes the loop run all 10 attempts and then return the tenth
failing response as an ordinary value: no error of any kind is surfaced,
contradicting the claim that exhausting the budget is a terminal failure. -/
theorem c1_exhausted_budget_returns_silently :
    (∀ i : Nat,
        (svcFail500 (build_epa_trace_query putinExample takeoutExample) i).status_code = 500) ∧
    get_epa_trace_response (some staleFailureResponse) svcFail500 putinExample takeoutExample =
      (Except.ok { status_code := 500, body := 9 }, 10) := by
  refine ⟨fun i => rfl, ?_⟩
  rfl

/-- C2 evaluation: the attempt bound of 10 does hold, but the N-failures-
then-success behaviour does not.  With the service failing once and then
succeeding (N = 1): if r is unbound the call dies with NameError after one
request instead of returning the second-attempt success; if r is bound to a
stale 200-status object the loop exits after one attempt and returns the
first, failing response. -/
theorem c2_retry_loop_never_reaches_success :
    (∀ (env_r : Option Response) (svc : TraceQuery → Nat → Response)
        (putin_point takeout_point : SnapPointDict),
        (get_epa_trace_response env_r svc putin_point takeout_point).2 ≤ 10) ∧
    get_epa_trace_response none svcFailOnce putinExample takeoutExample =
      (Except.error (PyError.nameError "r"), 1) ∧
    get_epa_trace_response (some staleOkResponse) svcFailOnce putinExample takeoutExample =
      (Except.ok { status_code := 500, body := 0 }, 1) := by
  refine ⟨?_, rfl, rfl⟩
  intro env_r svc putin_point takeout_point
  cases env_r with
  | none =>
    rw [trace_response_unbound_r]
    norm_num
  | some r =>
    rw [trace_response_char_some]
    by_cases h : r.status_code = 200
    · rw [if_pos h]
      norm_num
    · rw [if_neg h]

/-- C3 evaluation at the failing inputs: when the snapping service reports
no candidate (null output, or an empty ary_flowlines array), get_epa_snap_point
raises TypeError or IndexError, never TraceException; and
get_geometries_from_sdf_by_reach_id, on a table holding a valid put-in and
take-out pair, raises UnboundLocalError reading epa_putin before its
assignment, so its cannot-snap TraceException lines are unreachable. -/
theorem c3_snap_failure_not_reported_as_trace_exception :
    get_epa_snap_point nullOutputSnap =
      Except.error (PyError.typeError "NoneType object is not subscriptable") ∧
    get_epa_snap_point noCandidateSnap =
      Except.error (PyError.indexError "list index out of range") ∧
    get_geometries_from_sdf_by_reach_id sdfExample 2156 =
      Except.error (PyError.unboundLocalError "epa_putin") := by
  refine ⟨rfl, rfl, ?_⟩
  rfl

/-- C4: for every trace response whose list of traversed flowline segments
is empty, epa_trace_resp_to_esri_geom returns None (a valid empty trace,
not an error): the empty trace is distinguishable from a failure. -/
theorem c4_empty_trace_returns_none (trace_response : TraceResponseJson)
    (h : trace_response.output.flowlines_traversed = []) :
    epa_trace_resp_to_esri_geom trace_response = none := by
  simp [epa_trace_resp_to_esri_geom, h]

/-- Witness for C4 at a concrete empty trace response. -/
theorem c4_empty_trace_witness :
    emptyTraceResponse.output.flowlines_traversed = ([] : List FlowlineFeature) ∧
    epa_trace_resp_to_esri_geom emptyTraceResponse = none :=
  ⟨rfl, c4_empty_trace_returns_none emptyTraceResponse rfl⟩

/-- C5: for every trace response with a non-empty list of traversed
flowline segments, epa_trace_resp_to_esri_geom returns a polyline with
exactly one path, equal to the concatenation of each segment's coordinate
list in response order. -/
theorem c5_polyline_concatenates_segments (trace_response : TraceResponseJson)
    (h : trace_response.output.flowlines_traversed ≠ []) :
    epa_trace_resp_to_esri_geom trace_response =
      some { paths := [(trace_response.output.flowlines_traversed.map
                          (fun feature => feature.coordinates)).flatten]
             wkid := 4326 } := by
  unfold epa_trace_resp_to_esri_geom
  rw [if_pos h]

/-- Witness for C5: a two-segment trace response yields the single
concatenated path, in response order. -/
theorem c5_polyline_witness :
    twoSegmentTraceResponse.output.flowlines_traversed ≠ [] ∧
    epa_trace_resp_to_esri_geom twoSegmentTraceResponse =
      some { paths := [[ { x := 0, y := 0 }, { x := 1, y := 1 },
                         { x := 1, y := 1 }, { x := 2, y := 3 } ]]
             wkid := 4326 } :=
  ⟨List.cons_ne_nil _ _,
   c5_polyline_concatenates_segments twoSegmentTraceResponse (List.cons_ne_nil _ _)⟩

/-- C6: under a valid access_type, _get_access_from_sdf returns the row
exactly when the filtered table holds a single matching record, and raises
TraceException when zero or several records match. -/
theorem c6_access_lookup_requires_unique_record (sdf : List AccessRecord)
    (reach_id : Nat) (access_type : String)
    (h : access_type = "putin" ∨ access_type = "takeout") :
    _get_access_from_sdf sdf reach_id access_type =
      (match accessMatches sdf reach_id access_type with
       | [row] => Except.ok row
       | _ :: _ :: _ =>
           Except.error (PyError.traceException ("more than one " ++ access_type ++ " exists"))
       | [] =>
           Except.error (PyError.traceException ("does not have a " ++ toString reach_id))) ∧
    ((accessMatches sdf reach_id access_type).length = 1 ↔
      ∃ row, _get_access_from_sdf sdf reach_id access_type = Except.ok row) := by
  have hchar : _get_access_from_sdf sdf reach_id access_type =
      (match accessMatches sdf reach_id access_type with
       | [row] => Except.ok row
       | _ :: _ :: _ =>
           Except.error (PyError.traceException ("more than one " ++ access_type ++ " exists"))
       | [] =>
           Except.error (PyError.traceException ("does not have a " ++ toString reach_id))) := by
    unfold _get_access_from_sdf
    rcases h with h | h <;> subst h <;> simp
  refine ⟨hchar, ?_⟩
  rcases hm : accessMatches sdf reach_id access_type with _ | ⟨a, _ | ⟨b, t⟩⟩ <;>
    simp [hchar, hm]

/-- Witness for C6 at a concrete table with exactly one put-in for reach
2156. -/
theorem c6_access_lookup_witness :
    _get_access_from_sdf sdfExample 2156 "putin" =
      (match accessMatches sdfExample 2156 "putin" with
       | [row] => Except.ok row
       | _ :: _ :: _ =>
           Except.error (PyError.traceException ("more than one " ++ "putin" ++ " exists"))
       | [] =>
           Except.error (PyError.traceException ("does not have a " ++ toString 2156))) ∧
    ((accessMatches sdfExample 2156 "putin").length = 1 ↔
      ∃ row, _get_access_from_sdf sdfExample 2156 "putin" = Except.ok row) :=
  c6_access_lookup_requires_unique_record sdfExample 2156 "putin" (Or.inl rfl)

/-- Filtering an upsert result for rows of other reach ids gives back the
filtered original collection, provided every inserted feature carries the
upsert's reach id. -/
theorem filter_upsert_self (coll features : List FeatureRecord) (rid : String)
    (hf : ∀ p ∈ features, p.reach_id = rid) :
    (upsert_features coll rid features).filter (fun row => row.reach_id != rid) =
      coll.filter (fun row => row.reach_id != rid) := by
  unfold upsert_features
  rw [List.filter_append]
  have h1 : (coll.filter (fun row => row.reach_id != rid)).filter
      (fun row => row.reach_id != rid) = coll.filter (fun row => row.reach_id != rid) := by
    apply List.filter_eq_self.mpr
    intro a ha
    exact (List.mem_filter.mp ha).2
  have h2 : features.filter (fun row => row.reach_id != rid) = [] := by
    apply List.filter_eq_nil_iff.mpr
    intro a ha
    simp [hf a ha]
  rw [h1, h2, List.append_nil]

/-- The delete-then-insert upsert of one collection is idempotent when the
inserted features carry the upsert's reach id. -/
theorem upsert_features_idem (coll features : List FeatureRecord) (rid : String)
    (hf : ∀ p ∈ features, p.reach_id = rid) :
    upsert_features (upsert_features coll rid features) rid features =
      upsert_features coll rid features := by
  show (upsert_features coll rid features).filter (fun row => row.reach_id != rid)
        ++ features = upsert_features coll rid features
  rw [filter_upsert_self coll features rid hf]
  exact rfl

/-- Every member of a singleton list carries the reach id its only element
carries. -/
theorem singleton_carries_rid (a : FeatureRecord) (rid : String)
    (h : a.reach_id = rid) : ∀ p ∈ [a], p.reach_id = rid := by
  intro p hp
  rw [List.mem_singleton.mp hp]
  exact h

/-- C7: publishing the same Reach twice in succession leaves the line,
centroid and point collections in the same final state as publishing it
once, provided the published records carry the Reach's id (the spec keys
every record by reach id). -/
theorem c7_publish_twice_eq_publish_once (col : ReachCollections) (r : ReachFeatures)
    (hl : r.line_feature.reach_id = r.rid)
    (hc : r.centroid_feature.reach_id = r.rid)
    (hp : ∀ p ∈ r.point_features, p.reach_id = r.rid) :
    publish_reach (publish_reach col r) r = publish_reach col r := by
  show ReachCollections.mk
      (upsert_features (upsert_features col.line_coll r.rid [r.line_feature]) r.rid
        [r.line_feature])
      (upsert_features (upsert_features col.centroid_coll r.rid [r.centroid_feature]) r.rid
        [r.centroid_feature])
      (upsert_features (upsert_features col.point_coll r.rid r.point_features) r.rid
        r.point_features) =
    ReachCollections.mk (upsert_features col.line_coll r.rid [r.line_feature])
      (upsert_features col.centroid_coll r.rid [r.centroid_feature])
      (upsert_features col.point_coll r.rid r.point_features)
  rw [upsert_features_idem _ _ _ (singleton_carries_rid _ _ hl),
      upsert_features_idem _ _ _ (singleton_carries_rid _ _ hc),
      upsert_features_idem _ _ _ hp]

/-- Witness for C7 at concrete collections and records for reach 2156. -/
theorem c7_publish_idempotent_witness :
    reachFeaturesExample.line_feature.reach_id = reachFeaturesExample.rid ∧
    publish_reach (publish_reach collectionsExample reachFeaturesExample)
        reachFeaturesExample =
      publish_reach collectionsExample reachFeaturesExample :=
  ⟨rfl, c7_publish_twice_eq_publish_once collectionsExample reachFeaturesExample rfl rfl
    (by decide)⟩

/-- C8: for every snapping-service response containing a snapped end point
and a non-empty flowline array, get_epa_snap_point returns the snapped
coordinate together with the first flowline's fmeasure as the measure and
the first flowline's comid as the feature id. -/
theorem c8_snap_returns_first_flowline (rjson : SnapResponseJson)
    (out : SnapOutput) (ep : EndPoint) (c0 c1 : Rat) (rest : List Rat)
    (fl : SnapFlowline) (fls : List SnapFlowline)
    (h1 : rjson.output = some out) (h2 : out.end_point = some ep)
    (h3 : ep.coordinates = c0 :: c1 :: rest) (h4 : out.ary_flowlines = fl :: fls) :
    get_epa_snap_point rjson =
      Except.ok { geometry := { x := c0, y := c1 }
                  measure := fl.fmeasure
                  comid := fl.comid } := by
  simp [get_epa_snap_point, h1, h2, h3, h4]

/-- Witness for C8 at a concrete successful point-indexing response. -/
theorem c8_snap_witness :
    get_epa_snap_point goodSnap =
      Except.ok { geometry := { x := -121634402 / 1000000, y := 45794848 / 1000000 }
                  measure := 28
                  comid := 23719967 } :=
  c8_snap_returns_first_flowline goodSnap _ _ _ _ _ _ _ rfl rfl rfl rfl
